import Mathlib

/-!
Shallow embedding of the trade-offer lifecycle and mobile-confirmation
subsystem of the `steam` client library (`src/steam/trade.py`,
`src/steam/guard.py`, `src/steam/user.py`), together with theorems settling
the specification claims about it.

Machine-level conventions of the embedding:
* Python `int` values appearing in payloads (ids, amounts, timestamps) are
  modelled as `Nat` (they are decimal id strings / unix times, never
  negative in the code paths modelled here).
* JSON payload dictionaries are modelled as structures whose `Option`
  fields model possibly-absent keys.
* Exceptions are modelled by `Except PyErr`; a Python function that can
  raise returns `Except PyErr α`.
-/

/-- Exception kinds raised by the modelled code paths. `clientException`
and `confirmationError` carry the message string the source passes to the
exception constructor (`steam/errors.py` is not part of the sources; the
exception classes are modelled as plain tagged values). -/
inductive PyErr where
  | typeError
  | keyError
  | indexError
  | binasciiError
  | structError
  | unicodeEncodeError
  | clientException (msg : String)
  | confirmationError (msg : String)
  deriving DecidableEq, Repr

deriving instance DecidableEq for Except

/-- Modelled from the spec: `steam/game.py` is not in the sources; per the
spec's data model an `Asset` carries "the game the item is from",
constructed in `trade.py` as `Game(app_id=data['appid'])`.  Only the
`app_id` ever flows into the claims. -/
structure Game where
  app_id : Nat
  deriving DecidableEq, Repr

/-- Raw JSON dictionary for one entry of a payload's `assets` list
(fields read by `Asset.__init__`). -/
structure AssetData where
  assetid : Nat
  appid : Nat
  amount : Nat
  instanceid : Nat
  classid : Nat
  deriving DecidableEq, Repr

/-- The `Asset` value object of `trade.py` (`Asset.__init__`). -/
structure Asset where
  game : Game
  asset_id : Nat
  app_id : Nat
  amount : Nat
  instance_id : Nat
  class_id : Nat
  deriving DecidableEq, Repr

/-- Construction `Asset(data)` from a raw asset dictionary
(`Asset.__init__`, trade.py lines 71-77; `int(...)` conversions are the
identity under the `Nat` model). -/
def Asset.ofData (d : AssetData) : Asset :=
  { game := ⟨d.appid⟩
    asset_id := d.assetid
    app_id := d.appid
    amount := d.amount
    instance_id := d.instanceid
    class_id := d.classid }

/-- The source's `Asset.__eq__` (trade.py lines 83-84): equality holds iff
`instance_id` and `class_id` agree (the `isinstance` test always passes
here since both operands are modelled `Asset`s). -/
def Asset.eqPy (a b : Asset) : Bool :=
  a.instance_id == b.instance_id && a.class_id == b.class_id

/-- The source's `Asset.__ne__` (trade.py lines 86-87):
`not self.__eq__(other)`. -/
def Asset.nePy (a b : Asset) : Bool :=
  !(Asset.eqPy a b)

/-- Raw JSON dictionary for one entry of a payload's `descriptions` list
(only the fields the modelled claims touch: the join key and `name`,
which `Item._from_data` reads with `data.get('name')`). -/
structure DescriptionData where
  instanceid : Nat
  classid : Nat
  name : Option String
  deriving DecidableEq, Repr

/-- The `Item` object of `trade.py` (an `Item` extends `Asset`; the
`Asset` fields are flattened in, the metadata fields beyond `name` are
not consulted by any claim and are omitted). `missing` is the asset-only
fallback flag of `Item.__init__`. -/
structure Item where
  name : Option String
  asset_id : Nat
  app_id : Nat
  amount : Nat
  instance_id : Nat
  class_id : Nat
  missing : Bool
  deriving DecidableEq, Repr

/-- Equality test used on `Item`s: `Item` inherits `Asset.__eq__`, so two
items compare equal iff their `instance_id` and `class_id` agree,
regardless of every other field. -/
def Item.eqPy (a b : Item) : Bool :=
  a.instance_id == b.instance_id && a.class_id == b.class_id

/-- Construction `Item(state=..., data=item, missing=False)` where `item`
is a description dictionary that the inner loop of `Inventory._update`
has just merged with `item.update(asset)`: the asset's keys override, the
description's own `name` survives (assets carry no `name` key). -/
def Item.ofMerged (d : DescriptionData) (a : AssetData) : Item :=
  { name := d.name
    asset_id := a.assetid
    app_id := a.appid
    amount := a.amount
    instance_id := a.instanceid
    class_id := a.classid
    missing := false }

/-- Construction `Item(state=..., data=asset, missing=True)` directly from
an asset dictionary: `data.get('name')` yields `None`. -/
def Item.ofAsset (a : AssetData) : Item :=
  { name := none
    asset_id := a.assetid
    app_id := a.appid
    amount := a.amount
    instance_id := a.instanceid
    class_id := a.classid
    missing := true }

/-- Raw inventory payload handed to `Inventory.__init__` / `_update`.
`none` fields model dictionaries lacking the respective key. -/
structure InventoryData where
  assets : Option (List AssetData)
  descriptions : Option (List DescriptionData)
  total_inventory_count : Option Nat
  deriving Repr

/-- Observable state of an `Inventory` after `_update`: the `game`
attribute, the `items` list, and `_total_inventory_count` (which backs
`__len__`). -/
structure InventoryState where
  game : Option Game
  items : List Item
  total_inventory_count : Nat
  deriving DecidableEq, Repr

/-- Body of the asset loop of `Inventory._update` (trade.py lines
248-253): for each asset, every description matching on
`(instanceid, classid)` is merged and appended as a full `Item`, and then
- unconditionally, for every asset - an asset-only `Item` flagged
`missing=True` is appended as well. -/
def Inventory.reconcile (assets : List AssetData) (descriptions : List DescriptionData) :
    List Item :=
  assets.foldl
    (fun acc asset =>
      (acc ++
          descriptions.filterMap (fun item =>
            if item.instanceid == asset.instanceid && item.classid == asset.classid then
              some (Item.ofMerged item asset)
            else none)) ++
        [Item.ofAsset asset])
    []

/-- The source's `Inventory._update` (trade.py lines 240-254), applied at
construction time (`__init__` starts from `items = []`).  The `try` block
wraps only the `Game(...)` line and catches `KeyError` alone, so a
missing `assets` key yields the empty inventory, while an empty `assets`
list (`data['assets'][0]` on `[]`) raises `IndexError`, and a missing
`descriptions` or `total_inventory_count` key raises `KeyError` out of
the `else` branch. -/
def Inventory.updatePy (data : InventoryData) : Except PyErr InventoryState :=
  match data.assets with
  | none => .ok { game := none, items := [], total_inventory_count := 0 }
  | some [] => .error .indexError
  | some (a0 :: rest) =>
    match data.descriptions with
    | none => .error .keyError
    | some descriptions =>
      match data.total_inventory_count with
      | none => .error .keyError
      | some n =>
        .ok { game := some ⟨a0.appid⟩
              items := Inventory.reconcile (a0 :: rest) descriptions
              total_inventory_count := n }

/-- CPython `list.remove(v)` on a list of `Item`s: the first element `x`
with `x == v` (that is, `Item.eqPy x v`, the inherited `Asset.__eq__`) is
removed; absent a match the list is returned unchanged (the source only
ever removes values just obtained from the list, so `ValueError` cannot
fire there). -/
def listRemovePy : List Item → Item → List Item
  | [], _ => []
  | x :: xs, v => if Item.eqPy x v then xs else x :: listRemovePy xs v

/-- The source's `Inventory.filter_items` (trade.py lines 269-290) as a
function of the current `items` list: returns the list handed back to the
caller together with the `items` list left in the inventory.  The slice
`items[:len(items) - 1 if limit is None else limit]` parses as
`items[:(len(items) - 1)]` when `limit is None` and `items[:limit]`
otherwise; `List.take` reproduces Python's clamping slice for these
bounds (`len - 1` is `-1` only when the match list is empty, and
`[][:-1]` is `[]`, as is `List.take (0 - 1) []` under `Nat`
subtraction). -/
def Inventory.filterItemsPy (items : List Item) (item_name : String) (limit : Option Nat) :
    List Item × List Item :=
  let matched := items.filter (fun i => i.name == some item_name)
  let taken := matched.take (match limit with
    | none => matched.length - 1
    | some m => m)
  (taken, taken.foldl listRemovePy items)

/-- Modelled from the spec: the repository's `enums` module is not among
the sources.  Spec section 4.3 lists the members of the trade-offer state
enumeration and fixes `Active` as value 1 ("default on missing data is
`Active`/value 1"); the remaining members receive the listed order's
distinct values.  Members follow standard Python enum-member semantics:
a member is truthy (its boolean value never matters below because
`Active`'s value 1 is non-zero and object truthiness is the default),
and a bare member is not a container, so `x in member` raises
`TypeError`. -/
inductive TradeOfferState where
  | Invalid
  | Active
  | Accepted
  | Countered
  | Expired
  | Canceled
  | Declined
  | InvalidItems
  | ConfirmationNeed
  | CanceledBySecondFactor
  | InEscrow
  deriving DecidableEq, Repr

/-- Integer value of a state member; only `Active = 1` is normative
(spec section 4.3), the rest follow the listing order. -/
def TradeOfferState.value : TradeOfferState → Nat
  | .Invalid => 0
  | .Active => 1
  | .Accepted => 2
  | .Countered => 3
  | .Expired => 4
  | .Canceled => 5
  | .Declined => 6
  | .InvalidItems => 7
  | .ConfirmationNeed => 8
  | .InEscrow => 9
  | .CanceledBySecondFactor => 10

/-- Python truthiness of an enum member (an int-valued enum member is
falsy only at value 0; a plain object member is always truthy - either
way `Active` is truthy). -/
def TradeOfferState.truthy (s : TradeOfferState) : Bool :=
  s.value != 0

/-- Python `a or b` on two enum members: the first operand if truthy,
otherwise the second. -/
def pyOrState (a b : TradeOfferState) : TradeOfferState :=
  if a.truthy then a else b

/-- Python `x in m` where `m` is a bare enum member: enum members define
no `__contains__`, `__iter__` or `__getitem__`, so the membership test
raises `TypeError` whatever `x` is. -/
def stateMemberContains (_x _m : TradeOfferState) : Except PyErr Bool :=
  .error .typeError

/-- Network endpoints the trade actions can invoke (spec section 6); a
successful run of an action returns the single call it issued. -/
inductive NetCall where
  | acceptUserTrade (partner_id64 : Nat) (trade_id : Nat)
  | declineUserTrade (trade_id : Nat)
  | cancelUserTrade (trade_id : Nat)
  deriving DecidableEq, Repr

/-- The `TradeOffer` attributes consulted by the guarded actions
(trade.py `_update` and the action methods). -/
structure TradeOffer where
  id : Nat
  state : TradeOfferState
  partner_id64 : Nat
  items_to_send : List Item
  items_to_receive : List Item
  is_our_offer : Bool
  deriving DecidableEq, Repr

/-- The source's `TradeOffer.is_gift` (trade.py lines 481-483):
`True if self.items_to_receive and not self.items_to_send else False`. -/
def TradeOffer.isGift (o : TradeOffer) : Bool :=
  !o.items_to_receive.isEmpty && o.items_to_send.isEmpty

/-- The source's `TradeOffer.is_one_sided` (trade.py lines 485-491). -/
def TradeOffer.isOneSided (o : TradeOffer) : Bool :=
  if o.items_to_receive.isEmpty && !o.items_to_send.isEmpty then true
  else if !o.items_to_receive.isEmpty && o.items_to_send.isEmpty then true
  else false

/-- The guard prefix of `TradeOffer.accept` (trade.py lines 402-408), up
to and including the point where `http.accept_user_trade` is issued: the
three `if` checks run in source order, and the network call happens only
when all pass (the response-dependent auto-confirm tail is beyond the
claims settled here). -/
def TradeOffer.acceptPy (o : TradeOffer) : Except PyErr NetCall :=
  if o.state ≠ .Active then
    .error (.clientException "This trade is not active")
  else if o.state = .Accepted then
    .error (.clientException "This trade has already been accepted")
  else if o.is_our_offer then
    .error (.clientException "You cannot accept an offer the ClientUser has made")
  else .ok (.acceptUserTrade o.partner_id64 o.id)

/-- The source's `TradeOffer.decline` (trade.py lines 413-428).  The
first guard reads
`self.state not in (ETradeOfferState.Active or ETradeOfferState.ConfirmationNeed)`:
the parenthesised expression is a boolean `or` of two members, which
evaluates to the truthy first member `Active`, so the membership test is
`self.state not in ETradeOfferState.Active` - `in` applied to a bare
member, which raises `TypeError` before anything else happens (contrast
`TradeOffer.confirm`, trade.py line 382, which spells the same guard with
a proper tuple). -/
def TradeOffer.declinePy (o : TradeOffer) : Except PyErr NetCall := do
  let hit ← stateMemberContains o.state (pyOrState .Active .ConfirmationNeed)
  if !hit then
    throw (.clientException "This trade is not active")
  if o.state = .Declined then
    throw (.clientException "This trade has already been declined")
  if o.is_our_offer then
    throw (.clientException "You cannot decline an offer the ClientUser has made")
  return .declineUserTrade o.id

/-- The source's `TradeOffer.cancel` (trade.py lines 430-445), whose
first guard has the same `(Active or ConfirmationNeed)` shape as
`decline`'s. -/
def TradeOffer.cancelPy (o : TradeOffer) : Except PyErr NetCall := do
  let hit ← stateMemberContains o.state (pyOrState .Active .ConfirmationNeed)
  if !hit then
    throw (.clientException "This trade is not active")
  if o.state = .Canceled then
    throw (.clientException "This trade has already been cancelled")
  if !o.isGift then
    throw (.clientException "Offer wasn't created by the ClientUser and therefore cannot be canceled")
  return .cancelUserTrade o.id

/-- Outcome of one `trade.confirm()` attempt as observed by the send
flow in `user.py`: success, or one of the two exception kinds the loop
distinguishes. -/
inductive ConfirmOutcome where
  | success
  | confirmationError
  | clientException
  deriving DecidableEq, Repr

/-- Observable trace of the confirmation loop of `User.send`: how many
`trade.confirm()` attempts ran, the argument of each `asyncio.sleep`
performed, in order, and the state the offer is left in. -/
structure SendFlowTrace where
  attempts : Nat
  sleeps : List Nat
  finalState : TradeOfferState
  deriving DecidableEq, Repr

/-- The loop body iterations of `for tries in range(5)` (user.py lines
221-227), run over the remaining values of `tries`: a successful
`confirm()` just continues the loop (there is no `break` on success), a
`ConfirmationError` breaks out, and a `ClientException` sleeps
`tries * 2` and continues. -/
def sendConfirmIter (outcome : Nat → ConfirmOutcome) : List Nat → Nat × List Nat
  | [] => (0, [])
  | t :: rest =>
    match outcome t with
    | .confirmationError => (1, [])
    | .success =>
      let (n, s) := sendConfirmIter outcome rest
      (n + 1, s)
    | .clientException =>
      let (n, s) := sendConfirmIter outcome rest
      (n + 1, t * 2 :: s)

/-- The confirmation-pending branch of `User.send` (user.py lines
220-228): run the five-iteration loop, then unconditionally set
`trade.state = TradeOfferState.Active`. -/
def sendFlowConfirm (outcome : Nat → ConfirmOutcome) : SendFlowTrace :=
  let (n, s) := sendConfirmIter outcome (List.range 5)
  { attempts := n, sleeps := s, finalState := .Active }

/-- Standard base64 alphabet, as used by Python's `base64` module. -/
def b64Alphabet : List Char :=
  "ABCDEFGHIJKLMNOPQRSTUVWXYZabcdefghijklmnopqrstuvwxyz0123456789+/".toList

/-- Value of one base64 alphabet character, `none` for a non-alphabet
character. -/
def b64charVal (c : Char) : Option Nat :=
  if 'A' ≤ c && c ≤ 'Z' then some (c.toNat - 65)
  else if 'a' ≤ c && c ≤ 'z' then some (c.toNat - 97 + 26)
  else if '0' ≤ c && c ≤ '9' then some (c.toNat - 48 + 52)
  else if c == '+' then some 62
  else if c == '/' then some 63
  else none

/-- Decoder core over the character list: groups of four alphabet
characters yield three bytes; a final group may carry one or two `=`
padding characters.  This is the strict reading of base64; on every
input the claims call "a valid base64 secret" it agrees with Python's
`base64.b64decode`, and `none` models the `binascii.Error` path. -/
def b64decodeChars : List Char → Option (List Nat)
  | [] => some []
  | [a, b, '=', '='] => do
    let va ← b64charVal a
    let vb ← b64charVal b
    some [va * 4 + vb / 16]
  | [a, b, c, '='] => do
    let va ← b64charVal a
    let vb ← b64charVal b
    let vc ← b64charVal c
    some [va * 4 + vb / 16, vb % 16 * 16 + vc / 4]
  | a :: b :: c :: d :: rest => do
    let va ← b64charVal a
    let vb ← b64charVal b
    let vc ← b64charVal c
    let vd ← b64charVal d
    let tail ← b64decodeChars rest
    some ([va * 4 + vb / 16, vb % 16 * 16 + vc / 4, vc % 4 * 64 + vd] ++ tail)
  | _ => none

/-- Python `base64.b64decode` restricted to well-formed input. -/
def b64decode (s : String) : Option (List Nat) :=
  b64decodeChars s.toList

/-- Character of the base64 alphabet at index `n < 64`. -/
def b64char (n : Nat) : Char :=
  b64Alphabet.getD n 'A'

/-- Python `base64.b64encode(...).decode()` over a byte list. -/
def b64encodeBytes : List Nat → List Char
  | [] => []
  | [x] => [b64char (x / 4), b64char (x % 4 * 16), '=', '=']
  | [x, y] => [b64char (x / 4), b64char (x % 4 * 16 + y / 16), b64char (y % 16 * 4), '=']
  | x :: y :: z :: rest =>
    b64char (x / 4) :: b64char (x % 4 * 16 + y / 16) ::
      b64char (y % 16 * 4 + z / 64) :: b64char (z % 64) :: b64encodeBytes rest

/-- Python `base64.b64encode(bs).decode()`. -/
def b64encode (bs : List Nat) : String :=
  String.mk (b64encodeBytes bs)

/-- Python `struct.pack(">Q", n)`: the eight big-endian bytes of `n`, or
`struct.error` when `n` does not fit an unsigned 64-bit word. -/
def packBE64 (n : Nat) : Except PyErr (List Nat) :=
  if n < 2 ^ 64 then
    .ok [n / 2 ^ 56 % 256, n / 2 ^ 48 % 256, n / 2 ^ 40 % 256, n / 2 ^ 32 % 256,
         n / 2 ^ 24 % 256, n / 2 ^ 16 % 256, n / 2 ^ 8 % 256, n % 256]
  else .error .structError

/-- Big-endian value of a byte list (the core of
`struct.unpack(">I", bs)[0]` once `bs` is known to hold four bytes). -/
def unpackBE (bs : List Nat) : Nat :=
  bs.foldl (fun acc b => acc * 256 + b) 0

/-- Python `str.encode("ascii")`: byte list of the code points, or
`UnicodeEncodeError` on a non-ASCII character. -/
def asciiEncode (s : String) : Except PyErr (List Nat) :=
  if s.toList.all (fun c => c.toNat < 128) then
    .ok (s.toList.map Char.toNat)
  else .error .unicodeEncodeError

/-- The source's 26-symbol one-time-code alphabet (guard.py line 47). -/
def otpChars : List Char :=
  "23456789BCDFGHJKMNPQRTVWXY".toList

/-- The `for _ in range(5)` rendering loop of `generate_one_time_code`
(guard.py lines 48-52): each pass performs
`full_code, i = divmod(full_code, len(chars))` and appends `chars[i]`,
so digits come out least-significant first and are joined in exactly
that order. -/
def otpLoop : Nat → Nat → List Char
  | _, 0 => []
  | fc, n + 1 => otpChars.getD (fc % 26) '?' :: otpLoop (fc / 26) n

/-- Python `x or y` over an optional integer argument defaulted from the
clock (`timestamp = timestamp or int(time.time())`, guard.py line 40):
a missing or zero argument falls back to the current time. -/
def pyOrNat (x : Option Nat) (default : Nat) : Nat :=
  match x with
  | none => default
  | some v => if v ≠ 0 then v else default

/-- The source's `generate_one_time_code` (guard.py lines 30-52).
`hmacSha1 key msg` stands for the standard-library
`hmac.new(key, msg, sha1).digest()` (external to this repository; an
HMAC-SHA1 digest has 20 bytes); `now` is the ambient clock value
`int(time.time())`.  The digest is indexed at byte 19 (`IndexError` on a
shorter digest), the low nibble selects a 4-byte slice
(`struct.error` if fewer than 4 bytes remain), the 31-bit mask is the
`& 0x7FFFFFFF`, and the result is the 5-character rendering loop.  This
definition is the function's tail from line 43 on, factored over the
digest value. -/
def otpFromDigest (time_hmac : List Nat) : Except PyErr String :=
  match time_hmac.get? 19 with
  | none => .error .indexError
  | some b19 =>
    let bg := b19 % 16
    let slice := (time_hmac.drop bg).take 4
    if slice.length == 4 then
      let full_code := unpackBE slice &&& 0x7FFFFFFF
      .ok (String.mk (otpLoop full_code 5))
    else .error .structError

/-- The source's `generate_one_time_code` (guard.py lines 30-52),
assembled from the pieces above: default the timestamp from the clock,
pack the 30-second counter, decode the secret, take the HMAC-SHA1
digest and post-process it. -/
def generate_one_time_code (hmacSha1 : List Nat → List Nat → List Nat) (now : Nat)
    (shared_secret : String) (timestamp : Option Nat) : Except PyErr String := do
  let ts := pyOrNat timestamp now
  let time_buffer ← packBE64 (ts / 30)
  let key ← match b64decode shared_secret with
    | some k => pure k
    | none => throw .binasciiError
  otpFromDigest (hmacSha1 key time_buffer)

/-- Spec-side description of the one-time code, written from the claim's
words rather than from the source: HMAC-SHA1 over the 8-byte big-endian
encoding of `floor(timestamp / 30)` keyed by the decoded secret; the
4-byte big-endian slice at the offset given by the low nibble of digest
byte 19, masked to 31 bits; then 5 digits by repeated division by 26
over the fixed alphabet, least-significant digit first and assembled in
that order (not reversed). -/
def specOneTimeCode (hmacSha1 : List Nat → List Nat → List Nat)
    (key : List Nat) (timestamp : Nat) : String :=
  let counter := timestamp / 30
  let msg := [counter / 2 ^ 56 % 256, counter / 2 ^ 48 % 256, counter / 2 ^ 40 % 256,
              counter / 2 ^ 32 % 256, counter / 2 ^ 24 % 256, counter / 2 ^ 16 % 256,
              counter / 2 ^ 8 % 256, counter % 256]
  let digest := hmacSha1 key msg
  let o := digest.getD 19 0 % 16
  let word :=
    digest.getD o 0 * 2 ^ 24 + digest.getD (o + 1) 0 * 2 ^ 16 +
      digest.getD (o + 2) 0 * 2 ^ 8 + digest.getD (o + 3) 0
  let v := word % 2 ^ 31
  String.mk
    [otpChars.getD (v % 26) '?', otpChars.getD (v / 26 % 26) '?',
     otpChars.getD (v / 26 ^ 2 % 26) '?', otpChars.getD (v / 26 ^ 3 % 26) '?',
     otpChars.getD (v / 26 ^ 4 % 26) '?']

/-- Bindings taken by the module-level name `time` while `guard.py`'s
imports execute in order: line 5 (`from time import time`) binds the
stdlib function, and line 11 (`import time`) rebinds the same name to
the module object.  The later binding wins, so inside this module
`time` denotes the module. -/
inductive TimeBinding where
  | timeFunction
  | timeModule
  deriving DecidableEq, Repr

/-- Name `time` as `generate_confirmation_code` sees it: the module,
because `import time` (guard.py line 11) executes after
`from time import time` (guard.py line 5). -/
def guardTimeName : TimeBinding := .timeModule

/-- Python call `time()` under a given binding of the name: the function
returns the clock, the module object is not callable and raises
`TypeError`. -/
def callTimeName (b : TimeBinding) (now : Nat) : Except PyErr Nat :=
  match b with
  | .timeFunction => .ok now
  | .timeModule => .error .typeError

/-- The source's `generate_confirmation_code` (guard.py lines 55-69).
The first statement is `timestamp = timestamp or int(time())`, where
`time` is the shadowing module object (see `guardTimeName`), so the
defaulted path raises `TypeError` before any encoding or HMAC work; with
an explicit non-zero timestamp the function packs
`8-byte big-endian timestamp || ascii tag`, keys HMAC-SHA1 with the
decoded identity secret and base64-encodes the digest. -/
def generate_confirmation_code (hmacSha1 : List Nat → List Nat → List Nat) (now : Nat)
    (identity_secret : String) (tag : String) (timestamp : Option Nat) :
    Except PyErr String := do
  let ts ← match timestamp with
    | some v => if v ≠ 0 then pure v else callTimeName guardTimeName now
    | none => callTimeName guardTimeName now
  let packed ← packBE64 ts
  let tagBytes ← asciiEncode tag
  let buffer := packed ++ tagBytes
  let key ← match b64decode identity_secret with
    | some k => pure k
    | none => throw .binasciiError
  return b64encode (hmacSha1 key buffer)

/-- Modelled from the spec: the connection-state / HTTP layer is not
among the sources; spec sections 4.2 and 6 describe the confirmation
endpoint's reply as "JSON with a `success` boolean", and
`Confirmation.details` subscripts the object `http.get` returns
directly, so the response object is modelled as the parsed JSON mapping
itself (`resp.json()` in `_perform_op` views the same body).  `success`
is the value of the `success` key (`none` when absent) and `onlySuccess`
records whether `success` is the mapping's only key, which is what the
dict-equality test `resp_json == {"success": False}` needs. -/
structure MobileConfResponse where
  success : Option Bool
  onlySuccess : Bool
  deriving DecidableEq, Repr

/-- A reply whose body is exactly the degenerate failure shape. -/
def MobileConfResponse.exactlyFalse : MobileConfResponse :=
  { success := some false, onlySuccess := true }

/-- A plain successful reply. -/
def MobileConfResponse.plainSuccess : MobileConfResponse :=
  { success := some true, onlySuccess := true }

/-- Exceptions one attempt of `Confirmation._perform_op` can raise. -/
inductive OpExc where
  | confirmationError
  | tryAgain
  deriving DecidableEq, Repr

/-- One un-retried run of the body of `Confirmation._perform_op`
(guard.py lines 139-151) against the reply of that attempt, returning
the trade ids appended to `_state._confirmations_to_ignore` and the
exception raised, if any.  `_assert_valid` (guard.py lines 130-133) runs
first: a falsy `resp.get("success", False)` records the trade id and
raises `ConfirmationError` - which makes the subsequent
`resp_json == {"success": False}` `TryAgain` branch unreachable, since
reaching it requires a truthy `success`. -/
def performOpOnce (op : String) (trade_id : Nat) (resp : MobileConfResponse) :
    List Nat × Option OpExc :=
  if !(resp.success.getD false) then
    ([trade_id], some .confirmationError)
  else if op == "allow" && resp.success == some false && resp.onlySuccess then
    ([], some .tryAgain)
  else ([], none)

/-- Result of running `_perform_op` under its retry wrapper: either the
body returned normally on some attempt, or the attempt budget ran out
and a `RetryError` surfaced.  `attempts` counts body runs, `sleeps`
lists each inter-attempt wait, and `ignored` the accumulated
`_confirmations_to_ignore` appends. -/
structure RetryTrace where
  succeeded : Bool
  attempts : Nat
  sleeps : List Nat
  ignored : List Nat
  deriving DecidableEq, Repr

/-- The tenacity decorator on `_perform_op` (guard.py lines 134-138),
modelled from the library's documented semantics: `stop_after_attempt 4`
allows at most four runs of the body, `wait_fixed 4` sleeps 4 time units
between consecutive runs, and the default `retry` predicate retries on
any exception whatsoever (both `ConfirmationError` and `TryAgain`), so
exhausting the budget surfaces a `RetryError`.  `attempt` is 1-based;
`responses n` is the reply the n-th run observes (0-based). -/
def retryDrive (op : String) (trade_id : Nat) (responses : Nat → MobileConfResponse) :
    Nat → RetryTrace
  | 0 => { succeeded := false, attempts := 0, sleeps := [], ignored := [] }
  | fuel + 1 =>
    let attemptsSoFar := 4 - (fuel + 1)
    let (ign, exc) := performOpOnce op trade_id (responses attemptsSoFar)
    match exc with
    | none =>
      { succeeded := true, attempts := attemptsSoFar + 1, sleeps := [], ignored := ign }
    | some _ =>
      if fuel = 0 then
        { succeeded := false, attempts := attemptsSoFar + 1, sleeps := [], ignored := ign }
      else
        let rest := retryDrive op trade_id responses fuel
        { succeeded := rest.succeeded
          attempts := rest.attempts
          sleeps := 4 :: rest.sleeps
          ignored := ign ++ rest.ignored }

/-- `Confirmation._perform_op` as the caller observes it: the retried
body with a budget of four attempts. -/
def perform_op (op : String) (trade_id : Nat) (responses : Nat → MobileConfResponse) :
    RetryTrace :=
  retryDrive op trade_id responses 4

/-- Helper: `Asset.eqPy` is reflexive on keys. -/
theorem Item.eqPy_refl (a : Item) : Item.eqPy a a = true := by
  simp [Item.eqPy]

/-- Helper: symmetry of the inherited item equality, in implication
form. -/
theorem Item.eqPy_false_symm {a b : Item} (h : Item.eqPy a b = false) :
    Item.eqPy b a = false := by
  simp [Item.eqPy] at h ⊢
  intro h1
  rcases h h1.symm with h2
  exact fun hc => h2 hc.symm

/-- Helper: transitivity of the inherited item equality. -/
theorem Item.eqPy_trans {a b c : Item} (h1 : Item.eqPy a b = true)
    (h2 : Item.eqPy b c = true) : Item.eqPy a c = true := by
  simp [Item.eqPy] at h1 h2 ⊢
  exact ⟨h1.1.trans h2.1, h1.2.trans h2.2⟩

/-- C9: asset equality is determined solely by `(class_id, instance_id)`:
equal keys compare equal regardless of `amount` and `asset_id`, a
differing key component makes them unequal, and `!=` is the negation of
`==`. -/
theorem asset_equality_by_key (a b : Asset) :
    (a.class_id = b.class_id → a.instance_id = b.instance_id → Asset.eqPy a b = true)
    ∧ (a.class_id ≠ b.class_id ∨ a.instance_id ≠ b.instance_id → Asset.eqPy a b = false)
    ∧ Asset.nePy a b = !(Asset.eqPy a b) := by
  refine ⟨fun h1 h2 => ?_, fun h => ?_, rfl⟩
  · simp [Asset.eqPy, h1, h2]
  · rcases h with h | h <;> simp [Asset.eqPy] <;> intro h' <;> simp_all

/-- Witness for C9 at concrete assets: the first two agree on the key but
differ in `amount` and `asset_id`; the third differs in `class_id`. -/
theorem asset_equality_by_key_witness :
    Asset.eqPy ⟨⟨440⟩, 1, 440, 1, 5, 7⟩ ⟨⟨440⟩, 2, 440, 9, 5, 7⟩ = true
    ∧ Asset.eqPy ⟨⟨440⟩, 1, 440, 1, 5, 7⟩ ⟨⟨440⟩, 1, 440, 1, 5, 8⟩ = false
    ∧ Asset.nePy ⟨⟨440⟩, 1, 440, 1, 5, 7⟩ ⟨⟨440⟩, 2, 440, 9, 5, 7⟩
        = !(Asset.eqPy ⟨⟨440⟩, 1, 440, 1, 5, 7⟩ ⟨⟨440⟩, 2, 440, 9, 5, 7⟩) := by
  refine ⟨(asset_equality_by_key _ _).1 rfl rfl,
    (asset_equality_by_key _ _).2.1 (Or.inl (by decide)),
    (asset_equality_by_key _ _).2.2⟩

/-- C4 counterexample: on an offer whose state is `Accepted`, `accept()`
raises the "not active" `ClientException` - not the "already accepted"
one the claim names - because the `state != Active` guard fires first
and the `state == Accepted` branch is unreachable.  No network call is
issued (the result is an error, not an `acceptUserTrade` call). -/
theorem accept_on_accepted_counterexample :
    TradeOffer.acceptPy ⟨10, .Accepted, 76561198000000000, [], [], false⟩
        = .error (.clientException "This trade is not active")
    ∧ TradeOffer.acceptPy ⟨10, .Accepted, 76561198000000000, [], [], false⟩
        ≠ .error (.clientException "This trade has already been accepted") := by
  constructor
  · rfl
  · decide

/-- C4 (amended): for every offer in state `Accepted`, `accept()` raises
the "not active" `ClientException` and issues no network call - the
first guard shadows the dedicated already-accepted branch. -/
theorem accept_on_accepted_raises_not_active (o : TradeOffer) (h : o.state = .Accepted) :
    TradeOffer.acceptPy o = .error (.clientException "This trade is not active") := by
  simp [TradeOffer.acceptPy, h]

/-- Witness for C4's amended theorem at a concrete accepted offer. -/
theorem accept_on_accepted_raises_not_active_witness :
    TradeOffer.acceptPy ⟨11, .Accepted, 76561198000000001, [], [], true⟩
      = .error (.clientException "This trade is not active") :=
  accept_on_accepted_raises_not_active ⟨11, .Accepted, 76561198000000001, [], [], true⟩ rfl

/-- C5: the state guard of `decline()` and `cancel()` never behaves as a
membership test of the state in the pair `{Active, ConfirmationNeed}`:
the expression `(ETradeOfferState.Active or ETradeOfferState.ConfirmationNeed)`
is the single member `Active`, and `in` on a bare enum member raises
`TypeError`, so both methods raise `TypeError` on every offer - also
when the state is `Active` or `ConfirmationNeed`, where the claim says
the check passes - and never reach the remaining precondition checks or
the network call. -/
theorem decline_cancel_guard_type_error (o : TradeOffer) :
    TradeOffer.declinePy o = .error .typeError
    ∧ TradeOffer.cancelPy o = .error .typeError := by
  exact ⟨rfl, rfl⟩

/-- C6: evaluating `cancel()` at the claim's own input - an `Active`
offer that is neither ours (`is_our_offer = false`) nor a gift (items on
both sides) - does not raise the "wasn't created by the ClientUser"
`ClientException` the claim names: it raises `TypeError` at the
malformed state guard, before the gift check can run. -/
theorem cancel_not_gift_type_error :
    TradeOffer.cancelPy
        ⟨12, .Active, 76561198000000002,
          [⟨some "a", 1, 440, 1, 1, 1, false⟩], [⟨some "b", 2, 440, 1, 2, 2, false⟩], false⟩
      = .error .typeError
    ∧ TradeOffer.cancelPy
        ⟨12, .Active, 76561198000000002,
          [⟨some "a", 1, 440, 1, 1, 1, false⟩], [⟨some "b", 2, 440, 1, 2, 2, false⟩], false⟩
      ≠ .error (.clientException
          "Offer wasn't created by the ClientUser and therefore cannot be canceled") := by
  constructor
  · rfl
  · decide

/-- Helper: the confirmation loop never runs more attempts than the
iteration list has entries. -/
theorem sendConfirmIter_le (outcome : Nat → ConfirmOutcome) (l : List Nat) :
    (sendConfirmIter outcome l).1 ≤ l.length := by
  induction l with
  | nil => simp [sendConfirmIter]
  | cons t rest ih =>
    simp only [sendConfirmIter, List.length_cons]
    cases outcome t <;> simp <;> omega

/-- C3: in the send flow's confirmation-pending branch, `confirm()` is
attempted at most 5 times; when attempts 1-4 (indices 0-3) raise
`ClientException` and attempt 5 (index 4) succeeds, exactly 5 attempts
run and the loop sleeps `tries * 2` after each failure - the strictly
increasing delays 0, 2, 4, 6; when attempt 1 raises
`ConfirmationError`, the loop breaks after exactly one attempt; and in
every case the loop exit sets the offer's state to `Active`. -/
theorem send_flow_backoff (outcome : Nat → ConfirmOutcome) :
    (sendFlowConfirm outcome).finalState = .Active
    ∧ (sendFlowConfirm outcome).attempts ≤ 5
    ∧ ((∀ t, t < 4 → outcome t = .clientException) → outcome 4 = .success →
        (sendFlowConfirm outcome).attempts = 5
        ∧ (sendFlowConfirm outcome).sleeps = [0, 2, 4, 6]
        ∧ (sendFlowConfirm outcome).sleeps.Chain' (· < ·))
    ∧ (outcome 0 = .confirmationError → (sendFlowConfirm outcome).attempts = 1) := by
  have hrange : List.range 5 = [0, 1, 2, 3, 4] := by decide
  refine ⟨rfl, ?_, fun hfail hsucc => ?_, fun hc => ?_⟩
  · have h := sendConfirmIter_le outcome (List.range 5)
    simpa [sendFlowConfirm] using h
  · have h0 := hfail 0 (by omega)
    have h1 := hfail 1 (by omega)
    have h2 := hfail 2 (by omega)
    have h3 := hfail 3 (by omega)
    refine ⟨?_, ?_, ?_⟩ <;>
      simp [sendFlowConfirm, hrange, sendConfirmIter, h0, h1, h2, h3, hsucc, List.Chain']
  · simp [sendFlowConfirm, hrange, sendConfirmIter, hc]

/-- Witness for C3 at the two concrete schedules the claim describes:
four `ClientException` failures then success, and an immediate
`ConfirmationError`. -/
theorem send_flow_backoff_witness :
    (sendFlowConfirm fun t =>
        if t < 4 then ConfirmOutcome.clientException else ConfirmOutcome.success).attempts = 5
    ∧ (sendFlowConfirm fun t =>
        if t < 4 then ConfirmOutcome.clientException else ConfirmOutcome.success).sleeps
        = [0, 2, 4, 6]
    ∧ (sendFlowConfirm fun _ => ConfirmOutcome.confirmationError).attempts = 1
    ∧ (sendFlowConfirm fun _ => ConfirmOutcome.confirmationError).finalState = .Active := by
  have h1 := send_flow_backoff fun t =>
    if t < 4 then ConfirmOutcome.clientException else ConfirmOutcome.success
  have h2 := send_flow_backoff fun _ => ConfirmOutcome.confirmationError
  have hs := h1.2.2.1 (fun t ht => by simp [ht]) (by simp)
  exact ⟨hs.1, hs.2.1, h2.2.2.2 rfl, h2.1⟩

/-- C2 counterexample: a `cancel` operation whose first response is
exactly the degenerate failure shape is not surfaced immediately - the
tenacity wrapper's default predicate retries on any exception, so with a
successful second response `_perform_op` returns normally after two
attempts (with one 4-unit wait), contradicting "fails immediately with a
confirmation error and is never retried". -/
theorem cancel_retry_counterexample :
    (perform_op "cancel" 77
        (fun t => if t = 0 then .exactlyFalse else .plainSuccess)).succeeded = true
    ∧ (perform_op "cancel" 77
        (fun t => if t = 0 then .exactlyFalse else .plainSuccess)).attempts = 2
    ∧ (perform_op "cancel" 77
        (fun t => if t = 0 then .exactlyFalse else .plainSuccess)).sleeps = [4] := by
  refine ⟨?_, ?_, ?_⟩ <;> decide

/-- C2 (amended): under the retry wrapper of `_perform_op`
(`stop_after_attempt(4)`, `wait_fixed(4)`, default retry-on-exception),
an `allow` operation whose first two responses are exactly
`{"success": false}` and whose third succeeds returns after exactly 3
attempts with the fixed 4-unit delay between attempts; a `cancel`
operation receiving `{"success": false}` raises a confirmation error on
each failing attempt but is retried under the same bounded policy: with
a successful second response it returns after 2 attempts, and with
persistently failing responses it fails only after the full 4-attempt
budget. -/
theorem confirmation_retry_policy (trade_id : Nat)
    (responses : Nat → MobileConfResponse) :
    ((responses 0 = .exactlyFalse) → (responses 1 = .exactlyFalse) →
        (responses 2).success = some true →
        (perform_op "allow" trade_id responses).succeeded = true
        ∧ (perform_op "allow" trade_id responses).attempts = 3
        ∧ (perform_op "allow" trade_id responses).sleeps = [4, 4])
    ∧ ((responses 0).success = some false → (responses 1).success = some true →
        (perform_op "cancel" trade_id responses).succeeded = true
        ∧ (perform_op "cancel" trade_id responses).attempts = 2
        ∧ (perform_op "cancel" trade_id responses).sleeps = [4])
    ∧ ((∀ t, (responses t).success = some false) →
        (perform_op "cancel" trade_id responses).succeeded = false
        ∧ (perform_op "cancel" trade_id responses).attempts = 4
        ∧ (perform_op "cancel" trade_id responses).sleeps = [4, 4, 4]) := by
  refine ⟨fun h0 h1 h2 => ?_, fun h0 h1 => ?_, fun hall => ?_⟩
  · refine ⟨?_, ?_, ?_⟩ <;>
      simp [perform_op, retryDrive, performOpOnce, h0, h1, h2,
        MobileConfResponse.exactlyFalse]
  · refine ⟨?_, ?_, ?_⟩ <;>
      simp [perform_op, retryDrive, performOpOnce, h0, h1]
  · have h0 := hall 0
    have h1 := hall 1
    have h2 := hall 2
    have h3 := hall 3
    refine ⟨?_, ?_, ?_⟩ <;>
      simp [perform_op, retryDrive, performOpOnce, h0, h1, h2, h3]

/-- Witness for C2's amended theorem at concrete response schedules. -/
theorem confirmation_retry_policy_witness :
    (perform_op "allow" 5
        (fun t => if t < 2 then .exactlyFalse else .plainSuccess)).attempts = 3
    ∧ (perform_op "allow" 5
        (fun t => if t < 2 then .exactlyFalse else .plainSuccess)).sleeps = [4, 4]
    ∧ (perform_op "cancel" 5 (fun _ => .exactlyFalse)).succeeded = false
    ∧ (perform_op "cancel" 5 (fun _ => .exactlyFalse)).attempts = 4 := by
  have h1 := confirmation_retry_policy 5
    (fun t => if t < 2 then .exactlyFalse else .plainSuccess)
  have h2 := confirmation_retry_policy 5 (fun _ => MobileConfResponse.exactlyFalse)
  have ha := h1.1 (by simp) (by simp) (by simp [MobileConfResponse.plainSuccess])
  have hc := h2.2.2 (fun t => by simp [MobileConfResponse.exactlyFalse])
  exact ⟨ha.2.1, ha.2.2, hc.1, hc.2.1⟩

/-- C1: evaluating `Inventory._update` at the claim's failing input - a
payload of one asset with exactly one matching description - shows the
reconciliation bug: the asset-only `missing=True` item is appended
unconditionally for every asset (trade.py line 253 sits in the asset
loop, not behind a no-match test), so the items list holds 2 items, one
flagged missing, where the claim and spec require exactly 1 with none
missing.  The claim's other two parts do hold and are evaluated here as
well: an asset with no matching description yields exactly its missing
item, and a payload lacking the `assets` key yields length 0 and game
`None`. -/
theorem inventory_reconciliation_bug :
    Inventory.updatePy
        { assets := some [⟨101, 440, 1, 5, 7⟩]
          descriptions := some [⟨5, 7, some "Mann Co. Supply Crate Key"⟩]
          total_inventory_count := some 1 }
      = .ok { game := some ⟨440⟩
              items := [⟨some "Mann Co. Supply Crate Key", 101, 440, 1, 5, 7, false⟩,
                        ⟨none, 101, 440, 1, 5, 7, true⟩]
              total_inventory_count := 1 }
    ∧ (Inventory.reconcile [⟨101, 440, 1, 5, 7⟩] [⟨5, 7, some "Mann Co. Supply Crate Key"⟩]).length
        = 2
    ∧ ((Inventory.reconcile [⟨101, 440, 1, 5, 7⟩]
          [⟨5, 7, some "Mann Co. Supply Crate Key"⟩]).filter (fun i => i.missing)).length = 1
    ∧ Inventory.reconcile [⟨102, 440, 1, 6, 8⟩] [⟨5, 7, some "Mann Co. Supply Crate Key"⟩]
        = [⟨none, 102, 440, 1, 6, 8, true⟩]
    ∧ Inventory.updatePy { assets := none, descriptions := none, total_inventory_count := none }
        = .ok { game := none, items := [], total_inventory_count := 0 } := by
  refine ⟨rfl, rfl, rfl, rfl, rfl⟩

/-- C10: with the `timestamp` argument omitted, `generate_confirmation_code`
never produces a code - the defaulted path calls the local name `time`,
which `import time` (guard.py line 11) rebound to the module object, so
a `TypeError` is raised before any packing, encoding or HMAC work; a
code can be produced only from an explicit non-zero timestamp, and then
the result does not depend on the ambient clock at all - it is a pure
function of `(identity_secret, tag, timestamp)`. -/
theorem confirmation_code_shadowed_time (hmacSha1 : List Nat → List Nat → List Nat)
    (now now2 : Nat) (identity_secret tag : String) (ts : Nat) :
    generate_confirmation_code hmacSha1 now identity_secret tag none = .error .typeError
    ∧ (ts ≠ 0 →
        generate_confirmation_code hmacSha1 now identity_secret tag (some ts)
          = generate_confirmation_code hmacSha1 now2 identity_secret tag (some ts))
    ∧ (∀ tsOpt : Option Nat,
        (∃ code,
          generate_confirmation_code hmacSha1 now identity_secret tag tsOpt = .ok code) →
        ∃ v, tsOpt = some v ∧ v ≠ 0) := by
  refine ⟨rfl, fun hts => ?_, fun tsOpt h => ?_⟩
  · simp [generate_confirmation_code, hts]
  · obtain ⟨code, hok⟩ := h
    match tsOpt with
    | none => exact Except.noConfusion hok
    | some v =>
      by_cases hv : v = 0
      · subst hv
        exact Except.noConfusion hok
      · exact ⟨v, rfl, hv⟩

/-- Witness for C10 at a concrete digest function, secret, tag and
timestamp. -/
theorem confirmation_code_shadowed_time_witness :
    generate_confirmation_code (fun _ _ => [0, 1, 2]) 3 "AA==" "allow" none
        = .error .typeError
    ∧ generate_confirmation_code (fun _ _ => [0, 1, 2]) 3 "AA==" "allow" (some 1600000000)
        = generate_confirmation_code (fun _ _ => [0, 1, 2]) 9 "AA==" "allow" (some 1600000000) := by
  have h := confirmation_code_shadowed_time (fun _ _ => [0, 1, 2]) 3 9 "AA==" "allow" 1600000000
  exact ⟨h.1, h.2.1 (by decide)⟩

/-- Helper: symmetry of the inherited item equality, positive form. -/
theorem Item.eqPy_true_symm {a b : Item} (h : Item.eqPy a b = true) :
    Item.eqPy b a = true := by
  simp [Item.eqPy] at h ⊢
  exact ⟨h.1.symm, h.2.symm⟩

/-- Helper: on a list whose members are pairwise unequal under the
inherited item equality, `list.remove` deletes exactly the elements
equal to the removed value (there is at most one). -/
theorem listRemovePy_eq_filter (v : Item) (l : List Item)
    (h : l.Pairwise (fun a b => Item.eqPy a b = false)) :
    listRemovePy l v = l.filter (fun x => !(Item.eqPy x v)) := by
  induction l with
  | nil => rfl
  | cons x xs ih =>
    rw [List.pairwise_cons] at h
    obtain ⟨hx, hxs⟩ := h
    by_cases hxv : Item.eqPy x v = true
    · simp only [listRemovePy, hxv, if_true, List.filter_cons, Bool.not_true,
        Bool.false_eq_true, if_false]
      symm
      apply List.filter_eq_self.mpr
      intro y hy
      by_cases hyv : Item.eqPy y v = true
      · have hvy := Item.eqPy_true_symm hyv
        have hxy := Item.eqPy_trans hxv hvy
        rw [hx y hy] at hxy
        exact absurd hxy (by simp)
      · simp [Bool.eq_false_iff.mpr hyv]
    · have hxv' : Item.eqPy x v = false := Bool.eq_false_iff.mpr hxv
      simp only [listRemovePy, hxv', Bool.false_eq_true, if_false, List.filter_cons,
        Bool.not_false, if_true]
      rw [ih hxs]

/-- Helper: removing each member of `ret` in turn from a key-distinct
list filters out precisely the elements equal to some member of `ret`. -/
theorem foldl_listRemovePy_eq_filter (ret : List Item) (items : List Item)
    (h : items.Pairwise (fun a b => Item.eqPy a b = false)) :
    ret.foldl listRemovePy items
      = items.filter (fun x => !(ret.any (fun r => Item.eqPy x r))) := by
  induction ret generalizing items with
  | nil => simp
  | cons r rs ih =>
    rw [List.foldl_cons, listRemovePy_eq_filter r items h,
      ih _ (List.Pairwise.sublist (List.filter_sublist items) h), List.filter_filter]
    apply List.filter_congr
    intro a _
    simp [Bool.and_comm]

/-- C8 (amended): `filter_items` is a consuming read with a truncating
slice - with `limit` omitted it returns the first `k - 1` of the `k`
name matches in order (dropping the last match), and with `limit = m`
the first `min m k`; provided the inventory's items are pairwise
distinct on the `(class_id, instance_id)` key that backs item equality,
every returned item is removed from the item list and every
non-returned item remains (in its original order).  Without that
proviso, `list.remove` may delete an earlier equal item in place of the
returned one (see the counterexample). -/
theorem filter_items_consuming (items : List Item) (item_name : String) (limit : Option Nat)
    (hkeys : items.Pairwise (fun a b => Item.eqPy a b = false)) :
    (Inventory.filterItemsPy items item_name limit).1
        = (items.filter (fun i => i.name == some item_name)).take
            (match limit with
              | none => (items.filter (fun i => i.name == some item_name)).length - 1
              | some m => m)
    ∧ (∀ r ∈ (Inventory.filterItemsPy items item_name limit).1,
        r ∉ (Inventory.filterItemsPy items item_name limit).2)
    ∧ (∀ i ∈ items, i ∉ (Inventory.filterItemsPy items item_name limit).1 →
        i ∈ (Inventory.filterItemsPy items item_name limit).2)
    ∧ (Inventory.filterItemsPy items item_name limit).2.Sublist items := by
  have hrem : (Inventory.filterItemsPy items item_name limit).2
      = items.filter (fun x =>
          !((Inventory.filterItemsPy items item_name limit).1.any
            (fun r => Item.eqPy x r))) :=
    foldl_listRemovePy_eq_filter _ items hkeys
  have hretsub : ∀ r ∈ (Inventory.filterItemsPy items item_name limit).1, r ∈ items := by
    intro r hr
    exact List.filter_subset' _ (List.take_subset _ _ hr)
  refine ⟨rfl, ?_, ?_, ?_⟩
  · intro r hr hrmem
    rw [hrem] at hrmem
    have hpred := (List.mem_filter.mp hrmem).2
    have hany : ((Inventory.filterItemsPy items item_name limit).1.any
        (fun q => Item.eqPy r q)) = true :=
      List.any_eq_true.mpr ⟨r, hr, Item.eqPy_refl r⟩
    rw [hany] at hpred
    exact absurd hpred (by simp)
  · intro i hi hnot
    rw [hrem]
    refine List.mem_filter.mpr ⟨hi, ?_⟩
    have hany : ((Inventory.filterItemsPy items item_name limit).1.any
        (fun q => Item.eqPy i q)) = false := by
      rw [Bool.eq_false_iff]
      intro hc
      obtain ⟨q, hq, hiq⟩ := List.any_eq_true.mp hc
      have hqitems := hretsub q hq
      by_cases hiq' : i = q
      · exact hnot (hiq' ▸ hq)
      · have hsymm : Symmetric (fun a b : Item => Item.eqPy a b = false) :=
          fun a b hab => Item.eqPy_false_symm hab
        have hfalse := List.Pairwise.forall hsymm hkeys hi hqitems hiq'
        rw [hfalse] at hiq
        exact absurd hiq (by simp)
    simp [hany]
  · rw [hrem]
    exact List.filter_sublist items

/-- C8 counterexample: two items that share the `(class_id, instance_id)`
key but differ in name, with the non-matching one first.  Filtering on
the second item's name with `limit = 1` returns that item, yet
`list.remove` deletes the first list element comparing equal to it - the
non-returned item - so the returned item is not removed from the
inventory and a non-returned item is, refuting "every returned item is
removed from the inventory's item list and all non-returned items
remain". -/
theorem filter_items_counterexample :
    (Inventory.filterItemsPy
        [⟨some "y", 2, 440, 1, 1, 1, false⟩, ⟨some "x", 3, 440, 1, 1, 1, false⟩]
        "x" (some 1)).1 = [⟨some "x", 3, 440, 1, 1, 1, false⟩]
    ∧ (⟨some "x", 3, 440, 1, 1, 1, false⟩ : Item)
        ∈ (Inventory.filterItemsPy
            [⟨some "y", 2, 440, 1, 1, 1, false⟩, ⟨some "x", 3, 440, 1, 1, 1, false⟩]
            "x" (some 1)).2
    ∧ (⟨some "y", 2, 440, 1, 1, 1, false⟩ : Item)
        ∉ (Inventory.filterItemsPy
            [⟨some "y", 2, 440, 1, 1, 1, false⟩, ⟨some "x", 3, 440, 1, 1, 1, false⟩]
            "x" (some 1)).2 := by
  refine ⟨rfl, ?_, ?_⟩ <;> decide

/-- Witness for C8's amended theorem on a key-distinct inventory of
three items, two of which match the filtered name: the unlimited call
returns the first match only (k - 1 of k matches), removes it, and
keeps both other items. -/
theorem filter_items_consuming_witness :
    (Inventory.filterItemsPy
        [⟨some "key", 1, 440, 1, 1, 10, false⟩, ⟨some "key", 2, 440, 1, 2, 10, false⟩,
          ⟨some "other", 3, 440, 1, 3, 10, false⟩] "key" none).1
      = [⟨some "key", 1, 440, 1, 1, 10, false⟩]
    ∧ (⟨some "key", 1, 440, 1, 1, 10, false⟩ : Item)
        ∉ (Inventory.filterItemsPy
            [⟨some "key", 1, 440, 1, 1, 10, false⟩, ⟨some "key", 2, 440, 1, 2, 10, false⟩,
              ⟨some "other", 3, 440, 1, 3, 10, false⟩] "key" none).2
    ∧ (⟨some "other", 3, 440, 1, 3, 10, false⟩ : Item)
        ∈ (Inventory.filterItemsPy
            [⟨some "key", 1, 440, 1, 1, 10, false⟩, ⟨some "key", 2, 440, 1, 2, 10, false⟩,
              ⟨some "other", 3, 440, 1, 3, 10, false⟩] "key" none).2 := by
  have h := filter_items_consuming
    [⟨some "key", 1, 440, 1, 1, 10, false⟩, ⟨some "key", 2, 440, 1, 2, 10, false⟩,
      ⟨some "other", 3, 440, 1, 3, 10, false⟩] "key" none (by decide)
  refine ⟨h.1.trans (by decide), h.2.1 _ ?_, h.2.2.1 _ (by decide) ?_⟩
  · rw [h.1]
    decide
  · rw [h.1]
    decide

/-- Helper: in-range indexing is defined and agrees with the defaulted
read. -/
theorem get?_eq_some_getD (l : List Nat) (n : Nat) (h : n < l.length) :
    l.get? n = some (l.getD n 0) := by
  induction l generalizing n with
  | nil => simp at h
  | cons x t ih =>
    cases n with
    | zero => rfl
    | succ m =>
      have hm : m < t.length := by simpa using h
      simpa [List.getD] using ih m hm

/-- Helper: a 4-element window of a sufficiently long list, element by
element. -/
theorem take4_drop_eq_getD (l : List Nat) (b : Nat) (h : b + 4 ≤ l.length) :
    (l.drop b).take 4
      = [l.getD b 0, l.getD (b + 1) 0, l.getD (b + 2) 0, l.getD (b + 3) 0] := by
  induction b generalizing l with
  | zero =>
    rcases l with _ | ⟨x0, _ | ⟨x1, _ | ⟨x2, _ | ⟨x3, rest⟩⟩⟩⟩ <;> simp at h ⊢
  | succ n ih =>
    cases l with
    | nil => simp at h
    | cons x t =>
      have ht : n + 4 ≤ t.length := by
        simp at h
        omega
      simpa [List.getD] using ih t ht

/-- Helper: the big-endian word of a 4-byte list. -/
theorem unpackBE_four (a b c d : Nat) :
    unpackBE [a, b, c, d] = a * 2 ^ 24 + b * 2 ^ 16 + c * 2 ^ 8 + d := by
  simp [unpackBE, List.foldl]
  ring

/-- Helper: the 31-bit mask is reduction modulo `2 ^ 31`. -/
theorem and_mask31_eq_mod (x : Nat) : x &&& 0x7FFFFFFF = x % 2 ^ 31 := by
  have h := Nat.and_pow_two_sub_one_eq_mod x 31
  norm_num at h ⊢
  exact h

/-- Helper: the five iterations of the rendering loop, with the
divisions flattened to powers of 26. -/
theorem otpLoop_five (v : Nat) :
    otpLoop v 5
      = [otpChars.getD (v % 26) '?', otpChars.getD (v / 26 % 26) '?',
          otpChars.getD (v / 26 ^ 2 % 26) '?', otpChars.getD (v / 26 ^ 3 % 26) '?',
          otpChars.getD (v / 26 ^ 4 % 26) '?'] := by
  simp [otpLoop, Nat.div_div_eq_div_mul]

/-- Helper: reduction of `otpFromDigest` once byte 19 is known to
exist. -/
theorem otpFromDigest_some {b19 : Nat} {l : List Nat} (h : l.get? 19 = some b19) :
    otpFromDigest l
      = (if (((l.drop (b19 % 16)).take 4).length == 4) = true then
          .ok (String.mk (otpLoop (unpackBE ((l.drop (b19 % 16)).take 4) &&& 0x7FFFFFFF) 5))
        else .error .structError) := by
  unfold otpFromDigest
  rw [h]

/-- Helper: post-processing a 20-byte digest succeeds and produces the
masked big-endian window rendered by the loop. -/
theorem otpFromDigest_ok (digest : List Nat) (hlen : digest.length = 20) :
    otpFromDigest digest
      = .ok (String.mk (otpLoop
          ((digest.getD (digest.getD 19 0 % 16) 0 * 2 ^ 24
              + digest.getD (digest.getD 19 0 % 16 + 1) 0 * 2 ^ 16
              + digest.getD (digest.getD 19 0 % 16 + 2) 0 * 2 ^ 8
              + digest.getD (digest.getD 19 0 % 16 + 3) 0) % 2 ^ 31) 5)) := by
  have h19 : (19 : Nat) < digest.length := by omega
  have hbg : digest.getD 19 0 % 16 + 4 ≤ digest.length := by
    have := Nat.mod_lt (digest.getD 19 0) (show 0 < 16 by norm_num)
    omega
  rw [otpFromDigest_some (get?_eq_some_getD digest 19 h19),
    take4_drop_eq_getD digest (digest.getD 19 0 % 16) hbg]
  norm_num [unpackBE_four, and_mask31_eq_mod]

/-- C7: for a valid base64 shared secret and a positive timestamp (whose
30-second counter has an 8-byte encoding, as the claim's wording
presupposes), `generate_one_time_code` returns exactly the 5-character
string the claim describes - HMAC-SHA1 of the big-endian counter keyed
by the decoded secret, the 4-byte big-endian window at the offset given
by the low nibble of digest byte 19, masked to 31 bits, rendered by
repeated division by 26 over the fixed alphabet, least-significant digit
first and assembled in that order - and the result is deterministic: it
does not depend on the ambient clock, only on `(secret, timestamp)`. -/
theorem one_time_code_spec (hmacSha1 : List Nat → List Nat → List Nat)
    (now now2 ts : Nat) (shared_secret : String) (key : List Nat)
    (hkey : b64decode shared_secret = some key)
    (hts : 0 < ts) (hfit : ts / 30 < 2 ^ 64)
    (hdigest : ∀ k m, (hmacSha1 k m).length = 20) :
    generate_one_time_code hmacSha1 now shared_secret (some ts)
        = .ok (specOneTimeCode hmacSha1 key ts)
    ∧ generate_one_time_code hmacSha1 now shared_secret (some ts)
        = generate_one_time_code hmacSha1 now2 shared_secret (some ts)
    ∧ (specOneTimeCode hmacSha1 key ts).length = 5 := by
  have hne : ts ≠ 0 := Nat.pos_iff_ne_zero.mp hts
  have hmain : ∀ clock : Nat,
      generate_one_time_code hmacSha1 clock shared_secret (some ts)
        = .ok (specOneTimeCode hmacSha1 key ts) := by
    intro clock
    have hpy : pyOrNat (some ts) clock = ts := by simp [pyOrNat, hne]
    have hpack : packBE64 (ts / 30)
        = .ok [ts / 30 / 2 ^ 56 % 256, ts / 30 / 2 ^ 48 % 256, ts / 30 / 2 ^ 40 % 256,
            ts / 30 / 2 ^ 32 % 256, ts / 30 / 2 ^ 24 % 256, ts / 30 / 2 ^ 16 % 256,
            ts / 30 / 2 ^ 8 % 256, ts / 30 % 256] := by
      unfold packBE64
      rw [if_pos hfit]
    unfold generate_one_time_code
    rw [hpy]
    dsimp only
    rw [hpack, hkey]
    show otpFromDigest (hmacSha1 key
        [ts / 30 / 2 ^ 56 % 256, ts / 30 / 2 ^ 48 % 256, ts / 30 / 2 ^ 40 % 256,
          ts / 30 / 2 ^ 32 % 256, ts / 30 / 2 ^ 24 % 256, ts / 30 / 2 ^ 16 % 256,
          ts / 30 / 2 ^ 8 % 256, ts / 30 % 256])
      = .ok (specOneTimeCode hmacSha1 key ts)
    rw [otpFromDigest_ok _ (hdigest key _)]
    unfold specOneTimeCode
    rw [otpLoop_five]
  exact ⟨hmain now, (hmain now).trans (hmain now2).symm, rfl⟩

/-- Witness for C7 at a concrete digest function, secret and
timestamp. -/
theorem one_time_code_spec_witness :
    generate_one_time_code (fun _ _ => List.range 20) 0 "AAAA" (some 59)
        = .ok (specOneTimeCode (fun _ _ => List.range 20) [0, 0, 0] 59)
    ∧ (specOneTimeCode (fun _ _ => List.range 20) [0, 0, 0] 59).length = 5 := by
  have h := one_time_code_spec (fun _ _ => List.range 20) 0 7 59 "AAAA" [0, 0, 0]
    (by decide) (by decide) (by decide) (fun k m => by simp)
  exact ⟨h.1, h.2.2⟩
